import Mathlib

/-!
# Verification of the aw-qt supervisor shell

A shallow embedding of the aw-qt application code (`main.py`, `config.py`,
`trayicon.py`, `autostart.py`) together with proofs about it.  Pure Python
expressions become Lean functions; effectful calls (HTTP requests to the
local server, file-system access, subprocess invocations) become explicit
environment parameters whose values model the outcome the outside world
would produce.
-/

namespace AwQt

/-! ## Python string primitives

The code relies on `str.split(sep)`, `str.strip()`, `str.lower()` and string
truthiness.  They are modelled here over the character list of a string,
mirroring CPython semantics exactly (splitting the empty string yields one
empty field, separators at either end yield empty fields). -/

/-- CPython `str.split(sep)` for a one-character separator, acting on the
character list.  Always returns a non-empty list of fields. -/
def splitCharsOn (sep : Char) : List Char → List (List Char)
  | [] => [[]]
  | c :: rest =>
    match splitCharsOn sep rest with
    | [] => [[]]
    | w :: ws => if c = sep then [] :: w :: ws else (c :: w) :: ws

/-- CPython `str.split(sep)` for a one-character separator. -/
def pySplit (sep : Char) (s : String) : List String :=
  (splitCharsOn sep s.data).map (fun cs => String.mk cs)

/-- CPython `str.strip()`: remove leading and trailing whitespace (the code
only ever strips ordinary spaces and tabs around module names). -/
def pyStrip (s : String) : String :=
  String.mk ((s.data.dropWhile Char.isWhitespace).reverse.dropWhile Char.isWhitespace).reverse

/-- CPython `str.lower()` (the code only compares ASCII words with it). -/
def pyLower (s : String) : String := String.mk (s.data.map Char.toLower)

/-- Python truthiness of an `Optional[str]` value: `None` and the empty
string are falsy, every other string is truthy. -/
def truthyOptStr : Option String → Bool
  | none => false
  | some s => !(s == "")

/-! ## config.py: configuration sections -/

/-- The aw-qt configuration file, reduced to the `autostart_modules` entry of
its two sections `[aw-qt]` and `[aw-qt-testing]` (config.py, `default_config`
and `AwQtSettings.__init__`). -/
structure ConfigToml where
  awQt : List String
  awQtTesting : List String
deriving DecidableEq

/-- config.py line 30-32: `AwQtSettings.__init__` reads `autostart_modules`
from section `"aw-qt"` when `testing` is false and `"aw-qt-testing"` when it
is true. -/
def awQtSettingsAutostartModules (testing : Bool) (cfg : ConfigToml) : List String :=
  if testing then cfg.awQtTesting else cfg.awQt

/-! ## main.py: the autostart list computation (lines 121-129) -/

/-- The guard of the list comprehension in main.py line 123:
`if m and m.lower() != "none"` — the raw (unstripped) token must be truthy
and must not equal `"none"` after lowercasing. -/
def keepAutostartToken (m : String) : Bool :=
  !(m == "") && !(pyLower m == "none")

/-- The comprehension body of main.py line 123:
`[m.strip() for m in tokens if m and m.lower() != "none"]`. -/
def autostartComprehension (tokens : List String) : List String :=
  (tokens.filter keepAutostartToken).map pyStrip

/-- main.py lines 121-126: the `_autostart_modules` value that `main` passes
to `Manager.autostart`.  The Python conditional tests the truthiness of the
`autostart_modules` option, so `None` and the empty string both fall back to
the configured list. -/
def mainAutostartList : Option String → Bool → ConfigToml → List String
  | some s, testing, cfg =>
    if s == "" then awQtSettingsAutostartModules testing cfg
    else autostartComprehension (pySplit ',' s)
  | none, testing, cfg => awQtSettingsAutostartModules testing cfg

/-- The mapping described by claim C3, written from the spec words: when the
option is a non-empty string, its comma-separated tokens stripped of
surrounding whitespace in their original order; otherwise the configured
list of the section selected by the testing flag. -/
def specAutostartList : Option String → Bool → ConfigToml → List String
  | some s, testing, cfg =>
    if s == "" then awQtSettingsAutostartModules testing cfg
    else (pySplit ',' s).map pyStrip
  | none, testing, cfg => awQtSettingsAutostartModules testing cfg

/-- The amended mapping for claim C3, written from the spec words plus the
filter the code applies: tokens that are empty, or equal `"none"` ignoring
case before stripping, are dropped; the remaining tokens are stripped, in
their original order. -/
def specAutostartListAmended : Option String → Bool → ConfigToml → List String
  | some s, testing, cfg =>
    if s == "" then awQtSettingsAutostartModules testing cfg
    else
      (pySplit ',' s).foldr
        (fun m acc => if m = "" ∨ pyLower m = "none" then acc else pyStrip m :: acc) []
  | none, testing, cfg => awQtSettingsAutostartModules testing cfg

/-! ## main.py: control flow of `main` (lines 86-154) -/

/-- Observable effects of one run of `main`, in program order. -/
structure MainTrace where
  samayUrlHandled : Bool
  settingsLoaded : Bool
  managerConstructed : Bool
  autostartCalledWith : Option (List String)
  stopAllCalled : Bool
deriving DecidableEq

/-- main.py lines 101-153: `main` handles a truthy `--samay-url` value and
returns at once (lines 102-104), before `AwQtSettings` is loaded (line 121),
before the `Manager` is constructed (line 128), before `autostart` (line
129) and before `stop_all` (line 153); otherwise it performs all of those. -/
def mainRun (testing : Bool) (autostartModules samayUrl : Option String)
    (cfg : ConfigToml) : MainTrace :=
  if truthyOptStr samayUrl then
    { samayUrlHandled := true, settingsLoaded := false, managerConstructed := false,
      autostartCalledWith := none, stopAllCalled := false }
  else
    { samayUrlHandled := false, settingsLoaded := true, managerConstructed := true,
      autostartCalledWith := some (mainAutostartList autostartModules testing cfg),
      stopAllCalled := true }

/-! ## Lemmas about the string primitives -/

theorem splitCharsOn_ne_nil (sep : Char) (cs : List Char) : splitCharsOn sep cs ≠ [] := by
  cases cs with
  | nil => simp [splitCharsOn]
  | cons c rest =>
    simp only [splitCharsOn]
    match h : splitCharsOn sep rest with
    | [] => simp
    | w :: ws =>
      by_cases hc : c = sep <;> simp [hc]

theorem splitCharsOn_of_not_mem (sep : Char) (cs : List Char) (h : sep ∉ cs) :
    splitCharsOn sep cs = [cs] := by
  induction cs with
  | nil => rfl
  | cons c rest ih =>
    have hc : c ≠ sep := fun hcc => h (hcc ▸ List.mem_cons_self c rest)
    have hrest : sep ∉ rest := fun hm => h (List.mem_cons_of_mem c hm)
    simp only [splitCharsOn, ih hrest]
    simp [hc]

theorem splitCharsOn_sepFree_append (sep : Char) (w cs : List Char) (h : sep ∉ w) :
    splitCharsOn sep (w ++ sep :: cs) = w :: splitCharsOn sep cs := by
  induction w with
  | nil =>
    simp only [List.nil_append, splitCharsOn]
    match hrec : splitCharsOn sep cs with
    | [] => exact absurd hrec (splitCharsOn_ne_nil sep cs)
    | x :: xs => simp
  | cons a w ih =>
    have ha : a ≠ sep := fun haa => h (haa ▸ List.mem_cons_self a w)
    have hw : sep ∉ w := fun hm => h (List.mem_cons_of_mem a hm)
    simp only [List.cons_append, splitCharsOn, List.append_eq]
    rw [ih hw]
    simp [ha]

theorem string_mk_data (s : String) : String.mk s.data = s := by
  cases s
  rfl

theorem string_data_append (a b : String) : (a ++ b).data = a.data ++ b.data := by
  cases a
  cases b
  rfl

/-- Splitting `cmd ++ " " ++ arg` on a space yields the two tokens, when
neither part itself contains a space. -/
theorem pySplit_two_tokens (cmd arg : String)
    (hc : (' ' : Char) ∉ cmd.data) (ha : (' ' : Char) ∉ arg.data) :
    pySplit ' ' (cmd ++ " " ++ arg) = [cmd, arg] := by
  have hdata : (cmd ++ " " ++ arg).data = cmd.data ++ ' ' :: arg.data := by
    rw [string_data_append, string_data_append]
    simp
  simp only [pySplit, hdata, splitCharsOn_sepFree_append ' ' cmd.data _ hc,
    splitCharsOn_of_not_mem ' ' arg.data ha]
  simp [string_mk_data]

/-! ## C1: the "none" entry does not collapse the list -/

/-- Claim C1 states that a comma-separated name equal to "none" (ignoring
case) anywhere in the `--autostart-modules` value makes the whole list passed
to `Manager.autostart` empty.  At the value `"aw-server,none"` the name
`"none"` is present, yet main.py line 123 only filters that one token out and
still passes `["aw-server"]`. -/
theorem autostart_none_collapse_counterexample :
    ("none" ∈ pySplit ',' "aw-server,none" ∧ pyLower "none" = "none")
    ∧ mainAutostartList (some "aw-server,none") false ⟨["aw-server"], ["aw-server"]⟩
        = ["aw-server"] := by
  refine ⟨⟨by decide, by decide⟩, by decide⟩

/-- C1 (amended): a comma-separated name equal to `"none"` ignoring case is
dropped from the list individually — the list passed to `Manager.autostart`
is the one computed from the remaining tokens — and the option value exactly
`"none"` yields the empty list, so zero modules are started in that case. -/
theorem mainAutostartList_some_nonempty
    (s : String) (hs : (s == "") = false) (testing : Bool) (cfg : ConfigToml) :
    mainAutostartList (some s) testing cfg = autostartComprehension (pySplit ',' s) := by
  simp [mainAutostartList, hs]

theorem autostart_none_token_dropped
    (s t : String) (ts₁ ts₂ : List String) (testing : Bool) (cfg : ConfigToml)
    (hsplit : pySplit ',' s = ts₁ ++ t :: ts₂) (hnone : pyLower t = "none") :
    mainAutostartList (some s) testing cfg = autostartComprehension (ts₁ ++ ts₂)
    ∧ mainAutostartList (some "none") testing cfg = [] := by
  have hkeep : keepAutostartToken t = false := by
    simp [keepAutostartToken, hnone]
  constructor
  · by_cases hs : s = ""
    · subst hs
      have h0 : ts₁ ++ t :: ts₂ = [""] := by
        simpa [pySplit, splitCharsOn] using hsplit.symm
      have hlen := congrArg List.length h0
      simp at hlen
      have hts₁ : ts₁ = [] := List.length_eq_zero.mp (by omega)
      subst hts₁
      simp at h0
      have ht : t = "" := h0.1
      subst ht
      exact absurd hnone (by decide)
    · have hsb : (s == "") = false := by simp [hs]
      rw [mainAutostartList_some_nonempty s hsb, hsplit]
      simp [autostartComprehension, List.filter_append, List.filter_cons, hkeep]
  · rw [mainAutostartList_some_nonempty "none" (by decide)]
    decide

/-- Concrete run of `autostart_none_token_dropped`: the value
`"aw-server,None,aw-watcher-window"` contains the token `"None"`, which is
dropped while both neighbours survive. -/
theorem autostart_none_token_dropped_check :
    mainAutostartList (some "aw-server,None,aw-watcher-window") false ⟨[], []⟩
      = autostartComprehension (["aw-server"] ++ ["aw-watcher-window"])
    ∧ mainAutostartList (some "none") false ⟨[], []⟩ = [] :=
  autostart_none_token_dropped "aw-server,None,aw-watcher-window" "None"
    ["aw-server"] ["aw-watcher-window"] false ⟨[], []⟩ (by decide) (by decide)

/-! ## C3: the full mapping from the option to the autostart list -/

/-- Claim C3 states the list passed to `Manager.autostart` for a non-empty
option value is exactly the stripped comma-separated tokens in order.  At the
value `"a,none,,b"` the code additionally drops the `"none"` token and the
empty token, so the two mappings disagree. -/
theorem autostart_list_mapping_counterexample :
    mainAutostartList (some "a,none,,b") false ⟨[], []⟩ = ["a", "b"]
    ∧ specAutostartList (some "a,none,,b") false ⟨[], []⟩ = ["a", "none", "", "b"]
    ∧ mainAutostartList (some "a,none,,b") false ⟨[], []⟩
        ≠ specAutostartList (some "a,none,,b") false ⟨[], []⟩ := by
  refine ⟨by decide, by decide, by decide⟩

theorem autostartComprehension_eq_foldr (ts : List String) :
    autostartComprehension ts
      = ts.foldr
          (fun m acc => if m = "" ∨ pyLower m = "none" then acc else pyStrip m :: acc) [] := by
  induction ts with
  | nil => rfl
  | cons m ts ih =>
    have hcons : autostartComprehension (m :: ts)
        = if keepAutostartToken m then pyStrip m :: autostartComprehension ts
          else autostartComprehension ts := by
      by_cases hk : keepAutostartToken m <;>
        simp [autostartComprehension, List.filter_cons, hk]
    rw [List.foldr_cons, hcons, ih]
    by_cases h1 : m = ""
    · simp [keepAutostartToken, h1]
    · by_cases h2 : pyLower m = "none"
      · simp [keepAutostartToken, h1, h2]
      · simp [keepAutostartToken, h1, h2]

/-- C3 (amended): the list passed to `Manager.autostart` is — when the
`--autostart-modules` option is a non-empty string — its comma-separated
tokens with the empty tokens and the tokens equal to `"none"` ignoring case
dropped, the remaining tokens stripped of surrounding whitespace, in their
original order; otherwise the `autostart_modules` entry of the config section
selected by the testing flag. -/
theorem autostart_list_mapping_amended
    (autostartModules : Option String) (testing : Bool) (cfg : ConfigToml) :
    mainAutostartList autostartModules testing cfg
      = specAutostartListAmended autostartModules testing cfg := by
  match autostartModules with
  | none => rfl
  | some s =>
    by_cases hs : s == ""
    · simp [mainAutostartList, specAutostartListAmended, hs]
    · simp [mainAutostartList, specAutostartListAmended, hs,
        autostartComprehension_eq_foldr]

/-! ## C10: the samay-url early return -/

/-- Claim C10 states that whenever the `--samay-url` option is supplied,
`main` handles the URL and returns before loading settings or constructing
the `Manager`.  Supplying the empty string is a counterexample: main.py line
102 tests Python truthiness, so `--samay-url ""` is not handled and the run
proceeds to construct the `Manager` and autostart modules. -/
theorem samay_url_early_return_counterexample :
    (mainRun false none (some "") ⟨[], []⟩).managerConstructed = true
    ∧ (mainRun false none (some "") ⟨[], []⟩).samayUrlHandled = false
    ∧ (mainRun false none (some "") ⟨[], []⟩).settingsLoaded = true
    ∧ (mainRun false none (some "") ⟨[], []⟩).autostartCalledWith ≠ none := by
  refine ⟨by decide, by decide, by decide, by decide⟩

/-- C10 (amended): if the `--samay-url` option is supplied with a non-empty
value, the URL is handled and `main` returns immediately: no settings are
loaded, no `Manager` is constructed, no module is autostarted and `stop_all`
is never reached. -/
theorem samay_url_early_return
    (testing : Bool) (autostartModules : Option String) (u : String)
    (cfg : ConfigToml) (hu : u ≠ "") :
    mainRun testing autostartModules (some u) cfg =
      { samayUrlHandled := true, settingsLoaded := false, managerConstructed := false,
        autostartCalledWith := none, stopAllCalled := false } := by
  simp [mainRun, truthyOptStr, hu]

/-- Concrete run of `samay_url_early_return` at a well-formed samay URL. -/
theorem samay_url_early_return_check :
    mainRun false (some "aw-server") (some "samay://token?token=tok&url=http://localhost") ⟨[], []⟩ =
      { samayUrlHandled := true, settingsLoaded := false, managerConstructed := false,
        autostartCalledWith := none, stopAllCalled := false } :=
  samay_url_early_return false (some "aw-server")
    "samay://token?token=tok&url=http://localhost" ⟨[], []⟩ (by decide)

/-! ## config.py: server URLs (C4)

Each of the three network operations of `AwQtSettings` and the tray icon
constructor builds its own f-string
`"http://localhost:" + (5666 if testing else 5600)`; one definition per call
site, translated from the respective source line. -/

/-- config.py line 47 (`AwQtSettings._load_auth_data`). -/
def loadAuthServerUrl (testing : Bool) : String :=
  "http://localhost:" ++ toString (if testing then (5666 : Nat) else 5600)

/-- config.py line 99 (`AwQtSettings.save_auth_data`). -/
def saveAuthServerUrl (testing : Bool) : String :=
  "http://localhost:" ++ toString (if testing then (5666 : Nat) else 5600)

/-- config.py line 152 (`AwQtSettings.clear_auth_data`). -/
def clearAuthServerUrl (testing : Bool) : String :=
  "http://localhost:" ++ toString (if testing then (5666 : Nat) else 5600)

/-- trayicon.py line 139 (`TrayIcon.__init__`, `self.root_url`). -/
def trayIconRootUrl (testing : Bool) : String :=
  "http://localhost:" ++ toString (if testing then (5666 : Nat) else 5600)

/-- C4: every server-contacting operation of `AwQtSettings` and the tray icon
uses `http://localhost:5666` in testing mode and `http://localhost:5600`
otherwise. -/
theorem server_url_by_testing_flag (testing : Bool) :
    loadAuthServerUrl testing
        = (if testing then "http://localhost:5666" else "http://localhost:5600")
    ∧ saveAuthServerUrl testing
        = (if testing then "http://localhost:5666" else "http://localhost:5600")
    ∧ clearAuthServerUrl testing
        = (if testing then "http://localhost:5666" else "http://localhost:5600")
    ∧ trayIconRootUrl testing
        = (if testing then "http://localhost:5666" else "http://localhost:5600") := by
  cases testing <;> exact ⟨by decide, by decide, by decide, by decide⟩

/-! ## config.py: authentication state (C8)

`AwQtSettings` holds `auth_token`, `api_url` and `is_authenticated`.  The
network and file-system accesses of `_load_auth_data`, `save_auth_data` and
`clear_auth_data` are modelled by environment values describing the outcome
the outside world produces. -/

/-- The three authentication fields of an `AwQtSettings` instance. -/
structure AuthState where
  authToken : Option String
  apiUrl : Option String
  isAuthenticated : Bool
deriving DecidableEq

/-- Outcomes of the reads done while loading authentication data.
`serverGet`: `.error` = the GET raised, `.ok none` = a non-200 response,
`.ok (some (t, u))` = a 200 response whose JSON `data.get` fields are `t`
and `u` (a missing key is `none`).  `fallbackGet`: `.error` = the fallback
read raised, `.ok none` = no fallback file, `.ok (some (t, u))` = the file's
fields. -/
structure LoadEnv where
  serverGet : Except Unit (Option (Option String × Option String))
  fallbackGet : Except Unit (Option (Option String × Option String))

/-- The state with which `AwQtSettings.__init__` initialises the three
fields before `_load_auth_data` runs (config.py lines 35-37). -/
def initialAuthState : AuthState :=
  { authToken := none, apiUrl := none, isAuthenticated := false }

/-- config.py lines 43-91: `_load_auth_data` (with `_load_auth_data_fallback`
inlined on the exception path).  The fields are overwritten only when both
`token` and `url` are truthy; a non-200 response or falsy data leaves the
instance untouched and does not consult the fallback. -/
def loadAuthData (env : LoadEnv) (s : AuthState) : AuthState :=
  match env.serverGet with
  | .ok (some (t, u)) =>
      if truthyOptStr t && truthyOptStr u then
        { authToken := t, apiUrl := u, isAuthenticated := true }
      else s
  | .ok none => s
  | .error _ =>
      match env.fallbackGet with
      | .ok (some (t, u)) =>
          if truthyOptStr t && truthyOptStr u then
            { authToken := t, apiUrl := u, isAuthenticated := true }
          else s
      | .ok none => s
      | .error _ => s

/-- `AwQtSettings.__init__`: fresh fields, then `_load_auth_data`. -/
def mkAwQtSettings (env : LoadEnv) : AuthState :=
  loadAuthData env initialAuthState

/-- config.py lines 93-123: `save_auth_data`.  Only a 200 response from the
server updates the instance fields and returns `True`; on a non-200 response
or an exception the fields stay unchanged and `False` is returned (the
fallback file write does not touch the instance fields). -/
def saveAuthData (token apiUrl : String) (serverOk : Bool) (s : AuthState) :
    AuthState × Bool :=
  if serverOk then
    ({ authToken := some token, apiUrl := some apiUrl, isAuthenticated := true }, true)
  else (s, false)

/-- config.py lines 146-175: `clear_auth_data`.  Only a 200 response resets
the fields and returns `True`. -/
def clearAuthData (serverOk : Bool) (s : AuthState) : AuthState × Bool :=
  if serverOk then
    ({ authToken := none, apiUrl := none, isAuthenticated := false }, true)
  else (s, false)

/-- config.py lines 192-199: `get_auth_token` returns the token only when
`is_authenticated` holds and the token is truthy. -/
def getAuthToken (s : AuthState) : Option String :=
  if s.isAuthenticated && truthyOptStr s.authToken then s.authToken else none

/-- One call of `save_auth_data` or `clear_auth_data`, with the server's
answer. -/
inductive AuthOp where
  | save (token apiUrl : String) (serverOk : Bool)
  | clear (serverOk : Bool)
deriving DecidableEq

def applyAuthOp (s : AuthState) : AuthOp → AuthState
  | .save t u ok => (saveAuthData t u ok s).1
  | .clear ok => (clearAuthData ok s).1

def runAuthOps (ops : List AuthOp) (s : AuthState) : AuthState :=
  ops.foldl applyAuthOp s

/-- The C8 invariant on an `AwQtSettings` instance. -/
def AuthInv (s : AuthState) : Prop :=
  s.isAuthenticated = true → s.authToken ≠ none ∧ s.apiUrl ≠ none

theorem truthyOptStr_ne_none {o : Option String} (h : truthyOptStr o = true) :
    o ≠ none := by
  cases o with
  | none => simp [truthyOptStr] at h
  | some s => simp

theorem authInv_mkAwQtSettings (env : LoadEnv) : AuthInv (mkAwQtSettings env) := by
  unfold AuthInv mkAwQtSettings loadAuthData
  match env.serverGet with
  | .ok (some (t, u)) =>
    by_cases htu : truthyOptStr t && truthyOptStr u
    · simp only [htu, if_true]
      intro _
      have ht := (Bool.and_eq_true _ _).mp htu
      exact ⟨truthyOptStr_ne_none ht.1, truthyOptStr_ne_none ht.2⟩
    · simp only [Bool.not_eq_true] at htu
      simp [htu, initialAuthState]
  | .ok none => simp [initialAuthState]
  | .error _ =>
    match env.fallbackGet with
    | .ok (some (t, u)) =>
      by_cases htu : truthyOptStr t && truthyOptStr u
      · simp only [htu, if_true]
        intro _
        have ht := (Bool.and_eq_true _ _).mp htu
        exact ⟨truthyOptStr_ne_none ht.1, truthyOptStr_ne_none ht.2⟩
      · simp only [Bool.not_eq_true] at htu
        simp [htu, initialAuthState]
    | .ok none => simp [initialAuthState]
    | .error _ => simp [initialAuthState]

theorem authInv_applyAuthOp (s : AuthState) (op : AuthOp) (h : AuthInv s) :
    AuthInv (applyAuthOp s op) := by
  cases op with
  | save t u ok =>
    by_cases hok : ok = true
    · subst hok
      intro _
      exact ⟨by simp [applyAuthOp, saveAuthData], by simp [applyAuthOp, saveAuthData]⟩
    · have : ok = false := by simpa using hok
      subst this
      simpa [applyAuthOp, saveAuthData] using h
  | clear ok =>
    by_cases hok : ok = true
    · subst hok
      intro hauth
      simp [applyAuthOp, clearAuthData] at hauth
    · have : ok = false := by simpa using hok
      subst this
      simpa [applyAuthOp, clearAuthData] using h

theorem authInv_runAuthOps (ops : List AuthOp) (s : AuthState) (h : AuthInv s) :
    AuthInv (runAuthOps ops s) := by
  induction ops generalizing s with
  | nil => exact h
  | cons op ops ih =>
    exact ih (applyAuthOp s op) (authInv_applyAuthOp s op h)

/-- C8: after construction and any sequence of `save_auth_data` and
`clear_auth_data` calls, `is_authenticated` is true only if both
`auth_token` and `api_url` are non-None, and `get_auth_token` returns None
whenever `is_authenticated` is false. -/
theorem awqt_settings_auth_invariant (env : LoadEnv) (ops : List AuthOp) :
    ((runAuthOps ops (mkAwQtSettings env)).isAuthenticated = true →
        (runAuthOps ops (mkAwQtSettings env)).authToken ≠ none
        ∧ (runAuthOps ops (mkAwQtSettings env)).apiUrl ≠ none)
    ∧ ((runAuthOps ops (mkAwQtSettings env)).isAuthenticated = false →
        getAuthToken (runAuthOps ops (mkAwQtSettings env)) = none) := by
  constructor
  · exact authInv_runAuthOps ops (mkAwQtSettings env) (authInv_mkAwQtSettings env)
  · intro h
    simp [getAuthToken, h]

/-- Concrete runs of `awqt_settings_auth_invariant`: an instance that loaded
a token from the server keeps both fields set, and an instance whose data was
cleared answers `None` from `get_auth_token`. -/
theorem awqt_settings_auth_invariant_check :
    ((runAuthOps [] (mkAwQtSettings
        ⟨.ok (some (some "tok", some "http://api")), .ok none⟩)).authToken ≠ none
      ∧ (runAuthOps [] (mkAwQtSettings
        ⟨.ok (some (some "tok", some "http://api")), .ok none⟩)).apiUrl ≠ none)
    ∧ getAuthToken (runAuthOps [AuthOp.clear true] (mkAwQtSettings
        ⟨.ok (some (some "tok", some "http://api")), .ok none⟩)) = none :=
  ⟨(awqt_settings_auth_invariant ⟨.ok (some (some "tok", some "http://api")), .ok none⟩
      []).1 (by decide),
   (awqt_settings_auth_invariant ⟨.ok (some (some "tok", some "http://api")), .ok none⟩
      [AuthOp.clear true]).2 (by decide)⟩

/-! ## trayicon.py: the modules menu (C2, C5, C6)

`Manager` and `Module` live in manager.py, which is not among the source
files; the tray code only calls `module.name`, `module.is_alive()`,
`module.read_log(testing)`, `module.start`, `module.toggle` and the
`failed` attribute, so a module is modelled by those observations. -/

/-- A managed module as the tray icon observes it: its name, the value
`is_alive()` returns at menu-population time, the `failed` attribute
(`getattr(m, "failed", False)`), and its `read_log` accessor. -/
structure Module where
  name : String
  aliveNow : Bool
  failed : Bool
  readLog : Bool → String

/-- A module operation wired to a menu entry or dialog button. -/
inductive ModAction where
  | toggleModule (name : String) (testing : Bool)
  | startModule (name : String)
  | showFailedDialog (name : String)
  | noAction
deriving DecidableEq

/-- One entry of the Modules submenu. -/
structure MenuItem where
  title : String
  enabled : Bool
  checkable : Bool
  checked : Bool
  separator : Bool
  action : ModAction
deriving DecidableEq

/-- trayicon.py lines 594-595: the disabled "bundled"/"system" header. -/
def headerItem (location : String) : MenuItem :=
  { title := location, enabled := false, checkable := false, checked := false,
    separator := false, action := .noAction }

/-- trayicon.py lines 583-588: one checkable module entry whose action is
`module.toggle(self.testing)`, with data the module, initially checked when
`module.is_alive()`. -/
def moduleMenuItem (testing : Bool) (m : Module) : MenuItem :=
  { title := m.name, enabled := true, checkable := true, checked := m.aliveNow,
    separator := false, action := .toggleModule m.name testing }

/-- trayicon.py line 603: the separator before the failed-modules block. -/
def separatorItem : MenuItem :=
  { title := "", enabled := true, checkable := false, checked := false,
    separator := true, action := .noAction }

/-- trayicon.py lines 605-607: a (non-checkable) entry for a failed module
that triggers the failure dialog. -/
def failedItem (m : Module) : MenuItem :=
  { title := "⚠️ " ++ m.name ++ " (failed)", enabled := true, checkable := false,
    checked := false, separator := false, action := .showFailedDialog m.name }

/-- The relation `sorted(modules, key=lambda m: m.name)` sorts by. -/
def modNameLe (a b : Module) : Prop := a.name ≤ b.name

instance : DecidableRel modNameLe :=
  fun a b => inferInstanceAs (Decidable (a.name ≤ b.name))

instance : IsTotal Module modNameLe := ⟨fun a b => le_total a.name b.name⟩

instance : IsTrans Module modNameLe := ⟨fun _ _ _ h₁ h₂ => le_trans h₁ h₂⟩

/-- `sorted(modules, key=lambda m: m.name)`: a stable sort by name, modelled
by insertion sort (Python's sort is stable; both place an element after the
equal-keyed elements already seen). -/
def sortedByName (ms : List Module) : List Module :=
  List.insertionSort modNameLe ms

/-- trayicon.py lines 600-607: the failed-modules block appended after the
two partitions, present only when some module has `failed` set. -/
def failedSection (allModules : List Module) : List MenuItem :=
  let fs := allModules.filter (fun m => m.failed)
  if fs.isEmpty then [] else separatorItem :: fs.map failedItem

/-- trayicon.py lines 590-607: the items of the Modules submenu built by the
effective `_populate_modules_menu`: the "bundled" header and the
name-sorted bundled view, then the "system" header and the name-sorted
system view, then the failed block. -/
def modulesMenuItems (testing : Bool) (bundled system allModules : List Module) :
    List MenuItem :=
  (headerItem "bundled" :: (sortedByName bundled).map (moduleMenuItem testing))
  ++ (headerItem "system" :: (sortedByName system).map (moduleMenuItem testing))
  ++ failedSection allModules

/-- What a tray timer's tick does. -/
inductive TickKind where
  | pollModulesAndDrainStops
  | refreshAuthStatus
deriving DecidableEq

/-- A `QTimer` started during menu population. -/
structure TrayTimer where
  intervalMs : Nat
  tick : TickKind
deriving DecidableEq

/-- trayicon.py lines 542-544: the 5-second `module_timer` whose tick is
`_update_modules_menu`, which re-checks each entry and drains
`manager.get_unexpected_stops()`, surfacing and stopping every returned
module. -/
def moduleCheckTimer : TrayTimer :=
  { intervalMs := 5000, tick := .pollModulesAndDrainStops }

/-- trayicon.py lines 547-549: the 30-second `auth_timer`. -/
def authStatusTimer : TrayTimer :=
  { intervalMs := 30000, tick := .refreshAuthStatus }

/-- The observable outcome of one `_populate_modules_menu` call: the menu
contents afterwards and the timers it started. -/
structure PopulateResult where
  menu : List MenuItem
  timers : List TrayTimer

/-- The common signature of the two `_populate_modules_menu` definitions:
current menu items, bundled view, system view, full module list, testing
flag. -/
def PopulateMethod : Type :=
  List MenuItem → List Module → List Module → List Module → Bool → PopulateResult

/-- trayicon.py lines 526-549, the FIRST `def _populate_modules_menu`: it
adds no items and starts the module-check and auth timers. -/
def populateModulesMenuV1 : PopulateMethod := fun menu _ _ _ _ =>
  { menu := menu, timers := [moduleCheckTimer, authStatusTimer] }

/-- trayicon.py lines 566-607, the SECOND `def _populate_modules_menu`: it
clears the menu, rebuilds the items, and starts no timer. -/
def populateModulesMenuV2 : PopulateMethod := fun _ bundled system allModules testing =>
  { menu := modulesMenuItems testing bundled system allModules, timers := [] }

/-- The class body of `TrayIcon` binds the attribute name
`_populate_modules_menu` twice (trayicon.py lines 526 and 566), in this
order. -/
def trayIconPopulateBindings : List (String × PopulateMethod) :=
  [("_populate_modules_menu", populateModulesMenuV1),
   ("_populate_modules_menu", populateModulesMenuV2)]

/-- Python executes a class body sequentially into a dict, so for a repeated
attribute name the LAST binding is the method the class ends up with. -/
def effectivePopulateModulesMenu : PopulateMethod :=
  ((trayIconPopulateBindings.filter
      (fun b => b.1 == "_populate_modules_menu")).map Prod.snd).getLastD
    populateModulesMenuV1

/-- C2: the claim says populating the modules menu installs a periodic poll
draining `manager.get_unexpected_stops()`.  Only the first (shadowed)
definition starts such a timer; the second definition of the same method
name replaces it, and the effective `_populate_modules_menu` starts no timer
at all, so `get_unexpected_stops` is never drained and
`_update_modules_menu` (trayicon.py lines 551-564) is dead code. -/
theorem populate_starts_no_unexpected_stop_poll :
    effectivePopulateModulesMenu = populateModulesMenuV2
    ∧ (∀ menu bundled system allModules testing,
        (effectivePopulateModulesMenu menu bundled system allModules testing).timers = [])
    ∧ (∀ menu bundled system allModules testing,
        (populateModulesMenuV1 menu bundled system allModules testing).timers
          = [moduleCheckTimer, authStatusTimer]) :=
  ⟨rfl, fun _ _ _ _ _ => rfl, fun _ _ _ _ _ => rfl⟩

/-! ### C5: the module-failed dialog -/

/-- The failure dialog built by `show_module_failed_dialog`. -/
structure FailDialog where
  text : String
  detailedText : String
  restartButtonLabel : String
  restartAction : ModAction

/-- trayicon.py lines 570-581: the dialog shown for a module that quit
unexpectedly: warning text, `module.read_log(self.testing)` as detailed
text, and a Restart button wired to `module.start`. -/
def showModuleFailedDialog (m : Module) (testing : Bool) : FailDialog :=
  { text := "Module " ++ m.name ++ " quit unexpectedly",
    detailedText := m.readLog testing,
    restartButtonLabel := "Restart",
    restartAction := .startModule m.name }

/-- C5: the failure dialog displays the module's log read with the current
testing flag as its detailed text, and its Restart button is wired to that
module's start operation. -/
theorem module_failed_dialog_content (m : Module) (testing : Bool) :
    (showModuleFailedDialog m testing).detailedText = m.readLog testing
    ∧ (showModuleFailedDialog m testing).restartAction = ModAction.startModule m.name
    ∧ (showModuleFailedDialog m testing).restartButtonLabel = "Restart"
    ∧ (showModuleFailedDialog m testing).text
        = "Module " ++ m.name ++ " quit unexpectedly" :=
  ⟨rfl, rfl, rfl, rfl⟩

/-! ### C6: contents of the populated modules menu -/

theorem filter_checkable_moduleItems (testing : Bool) (ms : List Module) :
    ((ms.map (moduleMenuItem testing)).filter (fun it => it.checkable))
      = ms.map (moduleMenuItem testing) := by
  apply List.filter_eq_self.mpr
  intro a ha
  rcases List.mem_map.mp ha with ⟨m, _, rfl⟩
  rfl

theorem filter_checkable_failedSection (allModules : List Module) :
    (failedSection allModules).filter (fun it => it.checkable) = [] := by
  unfold failedSection
  by_cases hfs : ((allModules.filter (fun m => m.failed)).isEmpty : Bool)
  · simp [hfs]
  · simp only [hfs, Bool.false_eq_true, if_false]
    apply List.filter_eq_nil_iff.mpr
    intro a ha
    rcases List.mem_cons.mp ha with h | h
    · subst h
      simp [separatorItem]
    · rcases List.mem_map.mp h with ⟨m, _, rfl⟩
      simp [failedItem]

/-- C6: the checkable entries of the populated Modules menu are exactly the
bundled view followed by the system view, each stably sorted by module name
(a permutation of the view, pairwise ordered), one checkable entry per
module whose initial checked state is `module.is_alive()` and whose title is
the module name. -/
theorem modules_menu_population
    (menu : List MenuItem) (bundled system allModules : List Module) (testing : Bool) :
    ((effectivePopulateModulesMenu menu bundled system allModules testing).menu.filter
        (fun it => it.checkable)
      = (sortedByName bundled).map (moduleMenuItem testing)
        ++ (sortedByName system).map (moduleMenuItem testing))
    ∧ List.Perm (sortedByName bundled) bundled
    ∧ List.Perm (sortedByName system) system
    ∧ List.Sorted modNameLe (sortedByName bundled)
    ∧ List.Sorted modNameLe (sortedByName system)
    ∧ (∀ m : Module, (moduleMenuItem testing m).checkable = true
        ∧ (moduleMenuItem testing m).checked = m.aliveNow
        ∧ (moduleMenuItem testing m).title = m.name) := by
  refine ⟨?_, List.perm_insertionSort modNameLe bundled,
    List.perm_insertionSort modNameLe system,
    List.sorted_insertionSort modNameLe bundled,
    List.sorted_insertionSort modNameLe system,
    fun m => ⟨rfl, rfl, rfl⟩⟩
  show ((populateModulesMenuV2 menu bundled system allModules testing).menu.filter
      (fun it => it.checkable)) = _
  simp only [populateModulesMenuV2, modulesMenuItems, List.filter_append,
    List.filter_cons]
  rw [filter_checkable_moduleItems, filter_checkable_moduleItems,
    filter_checkable_failedSection]
  simp [headerItem]

/-! ## main.py: the interactive command session (C7) -/

/-- A call issued to the manager, or a message printed, by one loop body of
`_interactive_cli`. -/
inductive CliEffect where
  | startModule (name : String)
  | stopModule (name : String)
  | statusAll
  | statusOne (name : String)
  | usageStart
  | usageStop
  | unknown (cmd : String)
deriving DecidableEq

/-- main.py lines 163-184: the dispatch on `tokens = answer.split(" ")` for
one non-"q" input line.  A `status` line with more than one argument does
nothing; a blank (or whitespace-only) first token is skipped. -/
def cliStepTokens : List String → List CliEffect
  | [] => []
  | t :: rest =>
    if t == "start" then
      match rest with
      | [m] => [.startModule m]
      | _ => [.usageStart]
    else if t == "stop" then
      match rest with
      | [m] => [.stopModule m]
      | _ => [.usageStop]
    else if t == "s" || t == "status" then
      match rest with
      | [] => [.statusAll]
      | [m] => [.statusOne m]
      | _ => []
    else if pyStrip t == "" then []
    else [.unknown t]

/-- One loop body of `_interactive_cli` for a non-"q" line. -/
def cliStep (answer : String) : List CliEffect :=
  cliStepTokens (pySplit ' ' answer)

/-- main.py lines 158-161: `_interactive_cli` processes input lines in order
and breaks out of the loop at the first line that equals `"q"`. -/
def runCli : List String → List CliEffect
  | [] => []
  | answer :: rest => if answer == "q" then [] else cliStep answer ++ runCli rest

/-- C7: `status` with no argument renders the status of all modules,
`status <name>` (and likewise `start`/`stop <name>`) acts on exactly the
named module, and the session keeps processing commands until a `q` line,
after which nothing more is processed. -/
theorem interactive_cli_behaviour (name : String) (hname : (' ' : Char) ∉ name.data)
    (pre post : List String) (hq : "q" ∉ pre) :
    cliStep "status" = [CliEffect.statusAll]
    ∧ cliStep ("status" ++ " " ++ name) = [CliEffect.statusOne name]
    ∧ cliStep ("start" ++ " " ++ name) = [CliEffect.startModule name]
    ∧ cliStep ("stop" ++ " " ++ name) = [CliEffect.stopModule name]
    ∧ runCli (pre ++ "q" :: post) = runCli pre := by
  refine ⟨by decide, ?_, ?_, ?_, ?_⟩
  · unfold cliStep
    rw [pySplit_two_tokens "status" name (by decide) hname]
    rfl
  · unfold cliStep
    rw [pySplit_two_tokens "start" name (by decide) hname]
    rfl
  · unfold cliStep
    rw [pySplit_two_tokens "stop" name (by decide) hname]
    rfl
  · induction pre with
    | nil => simp [runCli]
    | cons a pre ih =>
      have hsplit2 : ("q" : String) ≠ a ∧ "q" ∉ pre := by
        simpa [List.mem_cons, not_or] using hq
      have hab : (a == "q") = false := beq_eq_false_iff_ne.mpr (Ne.symm hsplit2.1)
      simp [runCli, hab, ih hsplit2.2]

/-- Concrete run of `interactive_cli_behaviour`: querying one module by name
and processing commands up to the `q` line. -/
theorem interactive_cli_behaviour_check :
    cliStep "status" = [CliEffect.statusAll]
    ∧ cliStep ("status" ++ " " ++ "aw-server") = [CliEffect.statusOne "aw-server"]
    ∧ cliStep ("start" ++ " " ++ "aw-server") = [CliEffect.startModule "aw-server"]
    ∧ cliStep ("stop" ++ " " ++ "aw-server") = [CliEffect.stopModule "aw-server"]
    ∧ runCli (["status"] ++ "q" :: ["status"]) = runCli ["status"] :=
  interactive_cli_behaviour "aw-server" (by decide) ["status"] ["status"] (by decide)

/-! ## autostart.py: the AutostartManager (C9)

Each platform helper wraps its whole body in `try/except Exception: return
False`.  A body is a computation in `Except String` over an environment
describing what the OS calls would do; the helper is the body run under that
handler. -/

/-- Outcomes of the OS accesses of autostart.py.  An `.error` value means
the call raised. -/
structure SysEnv where
  plistExists : Except String Bool
  launchctlList : Except String Int
  findSamayApp : Except String (Option String)
  makedirsLaunchAgents : Except String Unit
  writePlist : Except String Unit
  launchctlLoad : Except String Unit
  launchctlUnload : Except String Unit
  removePlist : Except String Unit
  desktopExists : Except String Bool
  scriptExists : Except String Bool
  runScript : Except String Unit
  removeDesktop : Except String Unit
  importWinreg : Except String Unit
  openKeyRead : Except String Unit
  queryValue : Except String Bool
  closeKey : Except String Unit
  findSamayExe : Except String (Option String)
  openKeyWrite : Except String Unit
  setValue : Except String Unit
  deleteValue : Except String Unit

/-- `try: <body> except Exception: return False` around a Bool-returning
body. -/
def tryExceptBool (body : Except String Bool) : Bool :=
  match body with
  | .ok b => b
  | .error _ => false

/-- autostart.py lines 61-77: plist existence check, then
`launchctl list` with `returncode == 0`. -/
def isMacosAutostartBody (env : SysEnv) : Except String Bool := do
  let ex ← env.plistExists
  if ex then
    let rc ← env.launchctlList
    return rc == 0
  else
    return false

/-- autostart.py lines 79-127: find Samay.app (False when absent), create
the LaunchAgents dir, write the plist, `launchctl load` with `check=True`. -/
def enableMacosAutostartBody (env : SysEnv) : Except String Bool := do
  let app ← env.findSamayApp
  match app with
  | none => return false
  | some _ =>
    let _ ← env.makedirsLaunchAgents
    let _ ← env.writePlist
    let _ ← env.launchctlLoad
    return true

/-- autostart.py lines 129-143: unload and remove the plist when present;
True either way. -/
def disableMacosAutostartBody (env : SysEnv) : Except String Bool := do
  let ex ← env.plistExists
  if ex then
    let _ ← env.launchctlUnload
    let _ ← env.removePlist
    return true
  else
    return true

/-- autostart.py lines 145-152: the desktop-file existence check. -/
def isLinuxAutostartBody (env : SysEnv) : Except String Bool :=
  env.desktopExists

/-- autostart.py lines 154-167: run the autostart script when present,
False when the script is missing. -/
def enableLinuxAutostartBody (env : SysEnv) : Except String Bool := do
  let ex ← env.scriptExists
  if ex then
    let _ ← env.runScript
    return true
  else
    return false

/-- autostart.py lines 169-180: remove the desktop file when present; True
either way. -/
def disableLinuxAutostartBody (env : SysEnv) : Except String Bool := do
  let ex ← env.desktopExists
  if ex then
    let _ ← env.removeDesktop
    return true
  else
    return true

/-- autostart.py lines 182-196: import winreg, open the Run key, query the
"Samay" value; the inner handler maps only FileNotFoundError to False
(`queryValue = .ok false` here), the key is closed on every path. -/
def isWindowsAutostartBody (env : SysEnv) : Except String Bool := do
  let _ ← env.importWinreg
  let _ ← env.openKeyRead
  match env.queryValue with
  | .ok found =>
    let _ ← env.closeKey
    return found
  | .error e =>
    let _ ← env.closeKey
    throw e

/-- autostart.py lines 198-216: find the executable (False when absent),
then set the Run-key value. -/
def enableWindowsAutostartBody (env : SysEnv) : Except String Bool := do
  let _ ← env.importWinreg
  let exe ← env.findSamayExe
  match exe with
  | none => return false
  | some _ =>
    let _ ← env.openKeyWrite
    let _ ← env.setValue
    let _ ← env.closeKey
    return true

/-- autostart.py lines 218-230: delete the Run-key value. -/
def disableWindowsAutostartBody (env : SysEnv) : Except String Bool := do
  let _ ← env.importWinreg
  let _ ← env.openKeyWrite
  let _ ← env.deleteValue
  let _ ← env.closeKey
  return true

/-- autostart.py lines 25-35: `is_autostart_enabled` dispatches on
`platform.system()` and returns False on any other platform. -/
def isAutostartEnabled (platform : String) (env : SysEnv) : Bool :=
  if platform == "Darwin" then tryExceptBool (isMacosAutostartBody env)
  else if platform == "Linux" then tryExceptBool (isLinuxAutostartBody env)
  else if platform == "Windows" then tryExceptBool (isWindowsAutostartBody env)
  else false

/-- autostart.py lines 37-47: `enable_autostart`. -/
def enableAutostart (platform : String) (env : SysEnv) : Bool :=
  if platform == "Darwin" then tryExceptBool (enableMacosAutostartBody env)
  else if platform == "Linux" then tryExceptBool (enableLinuxAutostartBody env)
  else if platform == "Windows" then tryExceptBool (enableWindowsAutostartBody env)
  else false

/-- autostart.py lines 49-59: `disable_autostart`. -/
def disableAutostart (platform : String) (env : SysEnv) : Bool :=
  if platform == "Darwin" then tryExceptBool (disableMacosAutostartBody env)
  else if platform == "Linux" then tryExceptBool (disableLinuxAutostartBody env)
  else if platform == "Windows" then tryExceptBool (disableWindowsAutostartBody env)
  else false

/-- C9: the three public `AutostartManager` operations always produce a
Bool (they are total functions of the environment): on a platform other
than Darwin, Linux or Windows they return False, and whenever a
platform-specific helper body raises, the operation returns False. -/
theorem autostart_manager_never_raises (p : String) (env : SysEnv) :
    (p ≠ "Darwin" → p ≠ "Linux" → p ≠ "Windows" →
        isAutostartEnabled p env = false
        ∧ enableAutostart p env = false
        ∧ disableAutostart p env = false)
    ∧ (∀ e, isMacosAutostartBody env = .error e → isAutostartEnabled "Darwin" env = false)
    ∧ (∀ e, enableMacosAutostartBody env = .error e → enableAutostart "Darwin" env = false)
    ∧ (∀ e, disableMacosAutostartBody env = .error e → disableAutostart "Darwin" env = false)
    ∧ (∀ e, isLinuxAutostartBody env = .error e → isAutostartEnabled "Linux" env = false)
    ∧ (∀ e, enableLinuxAutostartBody env = .error e → enableAutostart "Linux" env = false)
    ∧ (∀ e, disableLinuxAutostartBody env = .error e → disableAutostart "Linux" env = false)
    ∧ (∀ e, isWindowsAutostartBody env = .error e → isAutostartEnabled "Windows" env = false)
    ∧ (∀ e, enableWindowsAutostartBody env = .error e → enableAutostart "Windows" env = false)
    ∧ (∀ e, disableWindowsAutostartBody env = .error e → disableAutostart "Windows" env = false) := by
  refine ⟨?_, ?_, ?_, ?_, ?_, ?_, ?_, ?_, ?_, ?_⟩
  · intro h1 h2 h3
    have b1 : (p == "Darwin") = false := beq_eq_false_iff_ne.mpr h1
    have b2 : (p == "Linux") = false := beq_eq_false_iff_ne.mpr h2
    have b3 : (p == "Windows") = false := beq_eq_false_iff_ne.mpr h3
    exact ⟨by simp [isAutostartEnabled, b1, b2, b3],
      by simp [enableAutostart, b1, b2, b3],
      by simp [disableAutostart, b1, b2, b3]⟩
  all_goals intro e he
  · simp [isAutostartEnabled, tryExceptBool, he]
  · simp [enableAutostart, tryExceptBool, he]
  · simp [disableAutostart, tryExceptBool, he]
  · simp [isAutostartEnabled, tryExceptBool, he]
  · simp [enableAutostart, tryExceptBool, he]
  · simp [disableAutostart, tryExceptBool, he]
  · simp [isAutostartEnabled, tryExceptBool, he]
  · simp [enableAutostart, tryExceptBool, he]
  · simp [disableAutostart, tryExceptBool, he]

/-- An environment in which every OS access raises. -/
def raisingSysEnv : SysEnv :=
  { plistExists := .error "boom", launchctlList := .error "boom",
    findSamayApp := .error "boom", makedirsLaunchAgents := .error "boom",
    writePlist := .error "boom", launchctlLoad := .error "boom",
    launchctlUnload := .error "boom", removePlist := .error "boom",
    desktopExists := .error "boom", scriptExists := .error "boom",
    runScript := .error "boom", removeDesktop := .error "boom",
    importWinreg := .error "boom", openKeyRead := .error "boom",
    queryValue := .error "boom", closeKey := .error "boom",
    findSamayExe := .error "boom", openKeyWrite := .error "boom",
    setValue := .error "boom", deleteValue := .error "boom" }

/-- Concrete run of `autostart_manager_never_raises`: an unknown platform
and an environment in which every OS access raises both map every operation
to False. -/
theorem autostart_manager_never_raises_check :
    (isAutostartEnabled "FreeBSD" raisingSysEnv = false
      ∧ enableAutostart "FreeBSD" raisingSysEnv = false
      ∧ disableAutostart "FreeBSD" raisingSysEnv = false)
    ∧ isAutostartEnabled "Darwin" raisingSysEnv = false
    ∧ enableAutostart "Darwin" raisingSysEnv = false
    ∧ disableAutostart "Darwin" raisingSysEnv = false
    ∧ isAutostartEnabled "Linux" raisingSysEnv = false
    ∧ enableAutostart "Linux" raisingSysEnv = false
    ∧ disableAutostart "Linux" raisingSysEnv = false
    ∧ isAutostartEnabled "Windows" raisingSysEnv = false
    ∧ enableAutostart "Windows" raisingSysEnv = false
    ∧ disableAutostart "Windows" raisingSysEnv = false := by
  have h := autostart_manager_never_raises "FreeBSD" raisingSysEnv
  exact ⟨h.1 (by decide) (by decide) (by decide),
    h.2.1 "boom" rfl, h.2.2.1 "boom" rfl, h.2.2.2.1 "boom" rfl,
    h.2.2.2.2.1 "boom" rfl, h.2.2.2.2.2.1 "boom" rfl, h.2.2.2.2.2.2.1 "boom" rfl,
    h.2.2.2.2.2.2.2.1 "boom" rfl, h.2.2.2.2.2.2.2.2.1 "boom" rfl,
    h.2.2.2.2.2.2.2.2.2 "boom" rfl⟩

end AwQt
